import Mathlib

/-!
A verification development for the crawler module `scraper.py`: the
link-extraction and URL-admission filter (trap detection, domain allow-list,
extension filtering, structural heuristics, dynamic path-pattern tracker,
and the statistics collector).

The Python source is shallowly embedded below.  Pure helpers become Lean
functions; module-level mutable state (the trap-pattern counter table and the
statistics aggregates) is threaded explicitly.  A Python exception that the
source lets escape to the caller is modelled by `Option`: result `none` means
"an exception propagated", `some x` means "returned `x` normally".

The parts of `urllib.parse` that the source relies on (`urlparse`, `urljoin`,
`urldefrag`) are embedded from CPython's implementation, restricted to ASCII
text: `str.lower` and the regex classes `\d` / `[a-zA-Z]` are modelled on
ASCII characters, which is faithful for every URL and text this development
evaluates.  `urlparse` raises `ValueError` ("Invalid IPv6 URL") exactly when
the authority component contains an unbalanced square bracket; that is the
one raising behaviour relevant here and is modelled by the `urlRaises`
predicate (newer bracket-host validation of CPython 3.11+ is not modelled,
as no claim depends on it).
-/

namespace Scraper

/-! ## Character and list-of-character helpers (ASCII semantics) -/

/-- ASCII lower-casing, the fragment of Python `str.lower` used here. -/
def pyLowerChar (c : Char) : Char :=
  if 'A' ≤ c && c ≤ 'Z' then Char.ofNat (c.toNat + 32) else c

/-- Python `str.lower` on ASCII text. -/
def pyLower (s : String) : String :=
  String.mk (s.data.map pyLowerChar)

/-- Does the character list `l` start with the list `p`? -/
def startsWithCL : List Char → List Char → Bool
  | _, [] => true
  | [], _ :: _ => false
  | c :: cs, p :: ps => c == p && startsWithCL cs ps

/-- Python `needle in hay` (substring containment) on character lists. -/
def containsCL : List Char → List Char → Bool
  | [], needle => needle.isEmpty
  | c :: cs, needle => startsWithCL (c :: cs) needle || containsCL cs needle

/-- Python `hay.startswith(pre)`. -/
def startsWithS (hay pre : String) : Bool :=
  startsWithCL hay.data pre.data

/-- Python `needle in hay` on strings. -/
def containsSubS (hay needle : String) : Bool :=
  containsCL hay.data needle.data

/-- Python `hay.endswith(suf)`. -/
def endsWithS (hay suf : String) : Bool :=
  startsWithCL hay.data.reverse suf.data.reverse

/-- Split a character list at the first occurrence of `sep`
(`none` when `sep` does not occur); the separator is dropped. -/
def splitAtFirst (sep : Char) : List Char → Option (List Char × List Char)
  | [] => none
  | c :: rest =>
    if c == sep then some ([], rest)
    else (splitAtFirst sep rest).map (fun p => (c :: p.1, p.2))

/-- Split a character list at the last occurrence of `sep`. -/
def splitAtLast (sep : Char) (l : List Char) : Option (List Char × List Char) :=
  (splitAtFirst sep l.reverse).map (fun p => (p.2.reverse, p.1.reverse))

/-- Python `s.split(sep)` for a single-character separator: no run collapsing,
`''.split(sep) = ['']`. -/
def splitOnCharCL (sep : Char) : List Char → List (List Char)
  | [] => [[]]
  | c :: rest =>
    match splitOnCharCL sep rest with
    | [] => if c == sep then [[], []] else [[c]]
    | g :: gs => if c == sep then [] :: g :: gs else (c :: g) :: gs

/-- `splitOnCharCL` on strings. -/
def splitOnCharS (sep : Char) (s : String) : List String :=
  (splitOnCharCL sep s.data).map String.mk

/-- Join strings with a single-character separator (Python `sep.join`). -/
def joinWith (sep : Char) : List String → String
  | [] => ""
  | [s] => s
  | s :: rest => s ++ String.mk [sep] ++ joinWith sep rest

/-! ## Embedding of `urllib.parse.urlsplit` / `urlparse` (CPython) -/

/-- The six components of CPython's `ParseResult`. -/
structure UrlParts where
  scheme : String
  netloc : String
  path : String
  params : String
  query : String
  fragment : String
deriving Repr, DecidableEq

/-- CPython `scheme_chars`: letters, digits and `+-.`. -/
def schemeChar (c : Char) : Bool :=
  c.isAlpha || c.isDigit || c == '+' || c == '-' || c == '.'

/-- CPython `urlsplit` input cleaning: left-strip WHATWG C0-control-or-space
characters, then delete every tab, carriage return and newline. -/
def cleanUrl (s : List Char) : List Char :=
  (s.dropWhile (fun c => c.toNat ≤ 32)).filter
    (fun c => !(c == Char.ofNat 9 || c == Char.ofNat 13 || c == Char.ofNat 10))

/-- CPython `urlsplit` scheme recognition: the text before the first `:` is a
scheme when it is non-empty, starts with an ASCII letter and consists of
scheme characters; otherwise the caller-supplied default applies. -/
def splitScheme (u : List Char) (dflt : String) : String × List Char :=
  match splitAtFirst ':' u with
  | some (before, after) =>
    if !before.isEmpty && (before.headD ' ').isAlpha && before.all schemeChar then
      (String.mk (before.map pyLowerChar), after)
    else (dflt, u)
  | none => (dflt, u)

/-- CPython `_splitnetloc`: after a leading `//`, the authority extends to the
first `/`, `?` or `#`. -/
def netlocStop (c : Char) : Bool :=
  c == '/' || c == '?' || c == '#'

/-- CPython `uses_params`: schemes whose path can carry `;`-parameters. -/
def uses_params : List String :=
  ["", "ftp", "hdl", "prospero", "http", "imap", "https", "shttp", "rtsp",
   "rtspu", "sip", "sips", "mms", "sftp", "tel"]

/-- CPython `_splitparams`: split `;`-parameters off the last path segment. -/
def splitParams (p : List Char) : List Char × List Char :=
  if p.contains '/' then
    match splitAtLast '/' p with
    | some (pre, post) =>
      match splitAtFirst ';' post with
      | some (x, y) => (pre ++ '/' :: x, y)
      | none => (p, [])
    | none => (p, [])
  else
    match splitAtFirst ';' p with
    | some (x, y) => (x, y)
    | none => (p, [])

/-- The total core of CPython `urlparse url dflt` (scheme default `dflt`):
clean the input, split off scheme, authority, fragment, query and params.
The `ValueError` CPython raises for an unbalanced bracket in the authority is
tracked separately by `urlRaises`. -/
def pyUrlparseT (url : String) (dflt : String) : UrlParts :=
  let u := cleanUrl url.data
  let (scheme, u) := splitScheme u dflt
  let (netloc, u) :=
    if startsWithCL u ['/', '/'] then
      let tail := u.drop 2
      (tail.takeWhile (fun c => !netlocStop c), tail.dropWhile (fun c => !netlocStop c))
    else ([], u)
  let (u, fragment) :=
    match splitAtFirst '#' u with
    | some (a, b) => (a, b)
    | none => (u, [])
  let (u, query) :=
    match splitAtFirst '?' u with
    | some (a, b) => (a, b)
    | none => (u, [])
  let (path, params) :=
    if uses_params.contains scheme && u.contains ';' then splitParams u
    else (u, [])
  { scheme := scheme
    netloc := String.mk netloc
    path := String.mk path
    params := String.mk params
    query := String.mk query
    fragment := String.mk fragment }

/-- Does CPython `urlparse` raise `ValueError "Invalid IPv6 URL"` on this
input?  True exactly when the authority contains `[` without `]` or `]`
without `[`.  (independent of the scheme default). -/
def urlRaises (url : String) : Bool :=
  let u := cleanUrl url.data
  let (_, u) := splitScheme u ""
  if startsWithCL u ['/', '/'] then
    let netloc := (u.drop 2).takeWhile (fun c => !netlocStop c)
    (netloc.contains '[' && !netloc.contains ']') ||
      (netloc.contains ']' && !netloc.contains '[')
  else false

/-- CPython `urlparse(url)`: `none` models the propagated `ValueError`. -/
def pyUrlparse (url : String) : Option UrlParts :=
  if urlRaises url then none else some (pyUrlparseT url "")

/-! ## Embedding of `urlunparse`, `urljoin`, `urldefrag` (CPython) -/

/-- CPython `urlunparse` (via `urlunsplit`, folding the params back in). -/
def urlunparse (p : UrlParts) : String :=
  let u := if p.params ≠ "" then p.path ++ ";" ++ p.params else p.path
  let u :=
    if p.netloc ≠ "" || startsWithS u "//" then
      "//" ++ p.netloc ++ (if u ≠ "" && !startsWithS u "/" then "/" ++ u else u)
    else u
  let u := if p.scheme ≠ "" then p.scheme ++ ":" ++ u else u
  let u := if p.query ≠ "" then u ++ "?" ++ p.query else u
  if p.fragment ≠ "" then u ++ "#" ++ p.fragment else u

/-- CPython `uses_relative`. -/
def uses_relative : List String :=
  ["", "ftp", "http", "gopher", "nntp", "imap", "wais", "file", "https",
   "shttp", "mms", "prospero", "rtsp", "rtspu", "sftp", "svn", "svn+ssh",
   "ws", "wss"]

/-- CPython `uses_netloc`. -/
def uses_netloc : List String :=
  ["", "ftp", "http", "gopher", "nntp", "telnet", "imap", "wais", "file",
   "mms", "https", "shttp", "snews", "prospero", "rtsp", "rtspu", "rsync",
   "svn", "svn+ssh", "sftp", "nfs", "git", "git+ssh", "ws", "wss",
   "itms-services"]

/-- The segment-resolution loop of CPython `urljoin`: `..` pops (ignoring
underflow), `.` is dropped, anything else is appended. -/
def resolveSegs : List String → List String → List String
  | [], acc => acc
  | s :: rest, acc =>
    if s == ".." then resolveSegs rest acc.dropLast
    else if s == "." then resolveSegs rest acc
    else resolveSegs rest (acc ++ [s])

/-- CPython `urljoin`'s `segments[1:-1] = filter(None, segments[1:-1])`:
drop empty segments strictly between the first and the last. -/
def filterMiddle : List String → List String
  | [] => []
  | [a] => [a]
  | a :: rest => a :: (rest.dropLast.filter (fun s => s ≠ "") ++ [rest.getLastD ""])

/-- CPython `urljoin(base, url)`; `none` models a propagated `ValueError`
from one of its two `urlparse` calls. -/
def urljoin? (base url : String) : Option String :=
  if base == "" then some url
  else if url == "" then some base
  else if urlRaises base then none
  else if urlRaises url then none
  else
    let b := pyUrlparseT base ""
    let u := pyUrlparseT url b.scheme
    if u.scheme ≠ b.scheme || !uses_relative.contains u.scheme then some url
    else if uses_netloc.contains u.scheme && u.netloc ≠ "" then
      some (urlunparse u)
    else
      let netloc :=
        if uses_netloc.contains u.scheme && u.netloc == "" then b.netloc
        else u.netloc
      if u.path == "" && u.params == "" then
        let query := if u.query == "" then b.query else u.query
        some (urlunparse { scheme := u.scheme, netloc := netloc,
                           path := b.path, params := b.params,
                           query := query, fragment := u.fragment })
      else
        let baseParts := splitOnCharS '/' b.path
        let baseParts :=
          if baseParts.getLastD "" ≠ "" then baseParts.dropLast else baseParts
        let segments :=
          if startsWithS u.path "/" then splitOnCharS '/' u.path
          else filterMiddle (baseParts ++ splitOnCharS '/' u.path)
        let resolved := resolveSegs segments []
        let resolved :=
          if segments.getLastD "" == "." || segments.getLastD "" == ".." then
            resolved ++ [""]
          else resolved
        let joined := joinWith '/' resolved
        let path := if joined == "" then "/" else joined
        some (urlunparse { scheme := u.scheme, netloc := netloc,
                           path := path, params := u.params,
                           query := u.query, fragment := u.fragment })

/-- CPython `urldefrag(url)[0]`: when the input contains `#`, reparse and
unparse with an empty fragment; otherwise return it unchanged.  `none`
models a propagated `ValueError`. -/
def urldefrag? (url : String) : Option String :=
  if url.data.contains '#' then
    if urlRaises url then none
    else some (urlunparse { pyUrlparseT url "" with fragment := "" })
  else some url

/-! ## `scraper.py`: stop words, trap patterns, disallowed extensions -/

/-- `STOP_WORDS` of `scraper.py`, verbatim (`\x27` is the apostrophe). -/
def STOP_WORDS : List String :=
  ["a", "about", "above", "after", "again", "against", "all", "am", "an",
   "and", "any", "are", "aren\x27t", "as", "at", "be", "because", "been",
   "before", "being", "below", "between", "both", "but", "by", "can\x27t",
   "cannot", "could", "couldn\x27t", "did", "didn\x27t", "do", "does",
   "doesn\x27t", "doing", "don\x27t", "down", "during", "each", "few", "for",
   "from", "further", "had", "hadn\x27t", "has", "hasn\x27t", "have",
   "haven\x27t", "having", "he", "he\x27d", "he\x27ll", "he\x27s", "her",
   "here", "here\x27s", "hers", "herself", "him", "himself", "his", "how",
   "how\x27s", "i", "i\x27d", "i\x27ll", "i\x27m", "i\x27ve", "if", "in",
   "into", "is", "isn\x27t", "it", "it\x27s", "its", "itself", "let\x27s",
   "me", "more", "most", "mustn\x27t", "my", "myself", "no", "nor", "not",
   "of", "off", "on", "once", "only", "or", "other", "ought", "our", "ours",
   "ourselves", "out", "over", "own", "same", "shan\x27t", "she", "she\x27d",
   "she\x27ll", "she\x27s", "should", "shouldn\x27t", "so", "some", "such",
   "than", "that", "that\x27s", "the", "their", "theirs", "them",
   "themselves", "then", "there", "there\x27s", "these", "they", "they\x27d",
   "they\x27ll", "they\x27re", "they\x27ve", "this", "those", "through",
   "to", "too", "under", "until", "up", "very", "was", "wasn\x27t", "we",
   "we\x27d", "we\x27ll", "we\x27re", "we\x27ve", "were", "weren\x27t",
   "what", "what\x27s", "when", "when\x27s", "where", "where\x27s", "which",
   "while", "who", "who\x27s", "whom", "why", "why\x27s", "with", "won\x27t",
   "would", "wouldn\x27t", "you", "you\x27d", "you\x27ll", "you\x27re",
   "you\x27ve", "your", "yours", "yourself", "yourselves"]

/-- The alternatives of the disallowed-extension regex in `is_valid`
(lines 302-314), with `jpe?g` and `tiff?` expanded. -/
def EXTENSIONS : List String :=
  ["css", "js", "bmp", "gif", "jpg", "jpeg", "ico",
   "png", "tif", "tiff", "mid", "mp2", "mp3", "mp4",
   "wav", "avi", "mov", "mpeg", "ram", "m4v", "mkv", "ogg", "ogv", "pdf",
   "ps", "eps", "tex", "ppt", "pptx", "doc", "docx", "xls", "xlsx", "names",
   "data", "dat", "exe", "bz2", "tar", "msi", "bin", "7z", "psd", "dmg",
   "iso", "epub", "dll", "cnf", "tgz", "sha1",
   "thmx", "mso", "arff", "rtf", "jar", "csv",
   "rm", "smil", "wmv", "swf", "wma", "zip", "rar", "gz",
   "img", "sql", "db", "bak", "cfg", "conf", "ini", "log",
   "xml", "json", "rss", "atom", "svg", "woff", "woff2", "ttf", "eot",
   "apk", "war", "mpg", "php", "asp", "jsp", "cgi", "py", "pl", "sh", "bat",
   "r", "m", "cc", "c", "h", "cpp", "java", "class", "o"]

/-- `re.match(r".*\.(css|js|...)$", path)` on the lower-cased path: since
`urlparse` removes tabs/CRs/newlines, the path is newline-free, and the
regex matches exactly when the path ends in a dot followed by one of the
alternatives. -/
def hasDisallowedExt (path : String) : Bool :=
  EXTENSIONS.any (fun e => endsWithS path ("." ++ e))

/-- The purely literal entries of `TRAP_PATTERNS` (every pattern except
`/page/\d+` and `\.pdf$`; `\?` escapes denote a literal question mark). -/
def TRAP_LITERALS : List String :=
  ["/calendar/", "/events/", "?ical=", "?share=", "?replytocom=",
   "/wp-json/", "/wp-admin/", "/wp-login", "/feed/", "/tag/",
   "/attachment/", "action=login", "action=download", "do=hierarchyview",
   "do=backlink", "do=revisions", "do=media", "do=index", "do=recent",
   "do=diff", "do=edit", "do=export", "version=", "format=",
   "tribe-bar-date=", "ics_file=", "/pdf/", "/slide_show/", "gallery",
   "login", "mailto:", "tel:", "javascript:"]

/-- `re.search(r'/page/\d+', s)`: some occurrence of `/page/` is followed
immediately by an ASCII digit. -/
def hasPageNum : List Char → Bool
  | [] => false
  | c :: rest =>
    (startsWithCL (c :: rest) ['/', 'p', 'a', 'g', 'e', '/'] &&
      (((c :: rest).drop 6).headD ' ').isDigit) || hasPageNum rest

/-- `re.search(r'\.pdf$', s)` without `re.MULTILINE`: `$` matches at the end
of the string or just before a single trailing newline. -/
def pdfAtEnd (s : String) : Bool :=
  endsWithS s ".pdf" || endsWithS s (".pdf" ++ String.mk [Char.ofNat 10])

/-- The `for pattern in TRAP_PATTERNS: if re.search(pattern, full_url)` loop
of `is_valid`, applied to the lower-cased full URL. -/
def hasTrapPattern (full : String) : Bool :=
  TRAP_LITERALS.any (fun p => containsSubS full p) ||
    hasPageNum full.data || pdfAtEnd full

/-! ## `scraper.py`: `get_path_pattern` and `is_valid` -/

/-- `re.sub(r'\d+', '\x7bN\x7d', s)`: replace each maximal ASCII digit run by
the three characters `\x7bN\x7d`.  The flag records whether the previous
character was part of a digit run. -/
def replaceDigitRuns : List Char → Bool → List Char
  | [], _ => []
  | c :: rest, inRun =>
    if c.isDigit then
      (if inRun then [] else [Char.ofNat 123, 'N', Char.ofNat 125]) ++
        replaceDigitRuns rest true
    else c :: replaceDigitRuns rest false

/-- `get_path_pattern(url)` (lines 96-102): netloc plus the path with digit
runs collapsed.  In the source this calls `urlparse`; `is_valid` only
reaches it after a successful parse of the same string, so the total parse
is used here. -/
def get_path_pattern (url : String) : String :=
  let parsed := pyUrlparseT url ""
  parsed.netloc ++ String.mk (replaceDigitRuns parsed.path.data false)

/-- The trap-tracker state `path_pattern_counts`: a `defaultdict(int)` from
PathPattern to occurrence count. -/
def TrapCounts := String → Nat

/-- `path_pattern_counts[pattern] += 1`. -/
def bump (c : TrapCounts) (pat : String) : TrapCounts :=
  fun q => if q = pat then c q + 1 else c q

/-- `MAX_PATTERN_COUNT = 100`. -/
def MAX_PATTERN_COUNT : Nat := 100

/-- The scheme check of `is_valid` (line 271). -/
def schemeOkB (scheme : String) : Bool :=
  scheme == "http" || scheme == "https"

/-- The domain allow-list check of `is_valid` (lines 286-294), on the
lower-cased netloc. -/
def allowedDomain (netloc : String) : Bool :=
  (netloc == "ics.uci.edu" || endsWithS netloc ".ics.uci.edu") ||
  (netloc == "cs.uci.edu" || endsWithS netloc ".cs.uci.edu") ||
  (netloc == "informatics.uci.edu" || endsWithS netloc ".informatics.uci.edu") ||
  (netloc == "stat.uci.edu" || endsWithS netloc ".stat.uci.edu")

/-- `[p for p in parsed.path.split('/') if p]` (line 328): the non-empty
slash-delimited segments, in original case. -/
def pathParts (path : String) : List String :=
  (splitOnCharS '/' path).filter (fun p => p ≠ "")

/-- Path-depth check (line 329). -/
def depthExceeded (parts : List String) : Bool :=
  parts.length > 15

/-- Query-breadth check (lines 335-338): a non-empty query split on `&`
with more than 5 parameters. -/
def queryTooBroad (q : String) : Bool :=
  q ≠ "" && (splitOnCharS '&' q).length > 5

/-- Repeated-segment check (lines 344-349): with at least 4 segments, some
segment at index `< len - 1` occurs at least 3 times in the list.  The
indices `0 .. len - 2` are exactly the elements of `dropLast`. -/
def hasRepeatedSeg (parts : List String) : Bool :=
  parts.length ≥ 4 && parts.dropLast.any (fun s => parts.count s ≥ 3)

/-- `is_valid(url)` (lines 259-369) with the mutable `path_pattern_counts`
threaded explicitly.  First component: `some b` is a normal return, `none`
an escaped exception — the source catches only `TypeError`, which a string
argument never triggers, while the `ValueError` of `urlparse` on an
unbalanced-bracket authority propagates. -/
def is_valid (url : String) (counts : TrapCounts) : Option Bool × TrapCounts :=
  if urlRaises url then (none, counts)
  else
    let parsed := pyUrlparseT url ""
    if !schemeOkB parsed.scheme then (some false, counts)
    else
      let netloc := pyLower parsed.netloc
      let path := pyLower parsed.path
      if !allowedDomain netloc then (some false, counts)
      else if hasDisallowedExt path then (some false, counts)
      else if hasTrapPattern (pyLower url) then (some false, counts)
      else
        let path_parts := pathParts parsed.path
        if depthExceeded path_parts then (some false, counts)
        else if queryTooBroad parsed.query then (some false, counts)
        else if hasRepeatedSeg path_parts then (some false, counts)
        else
          let pat := get_path_pattern url
          let counts' := bump counts pat
          if counts' pat > MAX_PATTERN_COUNT then (some false, counts')
          else if url.length > 300 then (some false, counts')
          else (some true, counts')

/-! ## Decomposition of `is_valid` around the Dynamic Trap Tracker check -/

/-- A call `is_valid url` reaches the path-pattern-frequency check (line 354):
the parse does not raise and every earlier check passes. -/
def reachesTracker (url : String) : Bool :=
  !urlRaises url &&
  (let parsed := pyUrlparseT url ""
   schemeOkB parsed.scheme &&
   allowedDomain (pyLower parsed.netloc) &&
   !hasDisallowedExt (pyLower parsed.path) &&
   !hasTrapPattern (pyLower url) &&
   !depthExceeded (pathParts parsed.path) &&
   !queryTooBroad parsed.query &&
   !hasRepeatedSeg (pathParts parsed.path))

/-- The value `is_valid` returns when it exits before the tracker check
(`some true` is unreachable there and stands for "no early exit"). -/
def earlyResult (url : String) : Option Bool :=
  if urlRaises url then none
  else
    let parsed := pyUrlparseT url ""
    if !schemeOkB parsed.scheme then some false
    else if !allowedDomain (pyLower parsed.netloc) then some false
    else if hasDisallowedExt (pyLower parsed.path) then some false
    else if hasTrapPattern (pyLower url) then some false
    else if depthExceeded (pathParts parsed.path) then some false
    else if queryTooBroad parsed.query then some false
    else if hasRepeatedSeg (pathParts parsed.path) then some false
    else some true

/-- The value `is_valid` returns once the tracker check is reached, given the
post-increment count `n` of the URL's pattern (lines 356-365). -/
def postTrackerResult (url : String) (n : Nat) : Option Bool :=
  if n > MAX_PATTERN_COUNT then some false
  else if url.length > 300 then some false
  else some true

/-- A call reaches the repeated-segment check (line 344): the parse does not
raise and every check before line 344 passes. -/
def reachesRepeatCheck (url : String) : Bool :=
  !urlRaises url &&
  (let parsed := pyUrlparseT url ""
   schemeOkB parsed.scheme &&
   allowedDomain (pyLower parsed.netloc) &&
   !hasDisallowedExt (pyLower parsed.path) &&
   !hasTrapPattern (pyLower url) &&
   !depthExceeded (pathParts parsed.path) &&
   !queryTooBroad parsed.query)

/-! ## `scraper.py`: tokenisation and word counting (lines 194-216) -/

/-- `re.findall(r'[a-zA-Z]+', text)`: the maximal runs of ASCII letters.
The accumulator holds the (reversed) run currently being read. -/
def alphaRunsAux : List Char → List Char → List (List Char)
  | [], acc => if acc.isEmpty then [] else [acc.reverse]
  | c :: rest, acc =>
    if c.isAlpha then alphaRunsAux rest (c :: acc)
    else if acc.isEmpty then alphaRunsAux rest []
    else acc.reverse :: alphaRunsAux rest []

/-- `[w.lower() for w in re.findall(r'[a-zA-Z]+', text)]` (line 195). -/
def pyTokens (text : String) : List String :=
  (alphaRunsAux text.data []).map (fun run => String.mk (run.map pyLowerChar))

/-- The word-count filter (line 215): not a stop word and longer than one
character. -/
def countedTok (w : String) : Bool :=
  !STOP_WORDS.contains w && w.length > 1

/-- One `word_counts[word] += 1` update. -/
def bumpWC (wc : String → Nat) (w : String) : String → Nat :=
  fun v => if v = w then wc v + 1 else wc v

/-- The `for word in words` counting loop (lines 214-216), left to right. -/
def updateWC (wc : String → Nat) : List String → (String → Nat)
  | [] => wc
  | w :: rest => updateWC (if countedTok w then bumpWC wc w else wc) rest

/-! ## `scraper.py`: statistics state and `extract_next_links` -/

/-- The module-level statistics aggregates (lines 14-17). -/
structure Stats where
  unique_pages : Finset String
  word_counts : String → Nat
  longest_page : String × Nat
  subdomain_pages : String → Finset String

/-- The initial (empty) statistics state. -/
def stats0 : Stats :=
  { unique_pages := ∅
    word_counts := fun _ => 0
    longest_page := ("", 0)
    subdomain_pages := fun _ => ∅ }

/-- The parse result of the response body, as delivered by the external HTML
parser (BeautifulSoup is out of scope): the `href` attributes of the anchor
elements in document order, and the visible text after dropping
script/style/noscript content, as produced by `get_text` (lines 188-192,
234).  `none` models both parser attempts failing (lines 174-180). -/
structure HtmlDoc where
  anchors : List String
  text : String

/-- `resp.raw_response`: the byte length of `content`, its parse, and the
`Content-Type` header (`none` when the key is absent). -/
structure RawResp where
  content_len : Nat
  parsed : Option HtmlDoc
  contentType : Option String

/-- The externally supplied response object: status code and optional raw
response. -/
structure Response where
  status : Int
  raw_response : Option RawResp

/-- The content-type guard of lines 163-165: the header value (defaulted to
the empty string) is truthy and does not contain `text/html`. -/
def ctBlocks (ct : Option String) : Bool :=
  let s := ct.getD ""
  s ≠ "" && !containsSubS s "text/html"

/-- The statistics block of `extract_next_links` (lines 198-227), mutating
`st` in source order.  First component `none` models a propagated
`ValueError` from `urldefrag` (line 206) or `urlparse` (line 219); the
second component keeps the mutations already performed before the raise.
The periodic `save_stats` call is external I/O and leaves the state
unchanged. -/
def observeStats (url : String) (ws : List String) (st : Stats) :
    Option Unit × Stats :=
  if ws.length < 25 then (some (), st)
  else
    match urldefrag? url with
    | none => (none, st)
    | some d =>
      let st1 : Stats := { st with unique_pages := insert d st.unique_pages }
      let st2 : Stats :=
        if ws.length > st1.longest_page.2 then
          { st1 with longest_page := (d, ws.length) }
        else st1
      let st3 : Stats := { st2 with word_counts := updateWC st2.word_counts ws }
      match pyUrlparse d with
      | none => (none, st3)
      | some pd =>
        let nl := pyLower pd.netloc
        (some (),
          { st3 with subdomain_pages :=
              fun h => if h = nl then insert d (st3.subdomain_pages h)
                       else st3.subdomain_pages h })

/-- Python `str.strip()` on ASCII text: remove leading and trailing
whitespace (space, tab, LF, CR, VT, FF). -/
def pyStrip (s : String) : String :=
  let ws := fun c : Char =>
    c == ' ' || c == Char.ofNat 9 || c == Char.ofNat 10 || c == Char.ofNat 13 ||
      c == Char.ofNat 11 || c == Char.ofNat 12
  String.mk (((s.data.dropWhile ws).reverse.dropWhile ws).reverse)

/-- The `href` acceptance test of lines 235-239, applied to the stripped
href: non-empty and not a `javascript:`, `mailto:`, `tel:` or pure-fragment
reference. -/
def acceptHref (href : String) : Bool :=
  let s := pyStrip href
  !(s == "" || startsWithS s "javascript:" || startsWithS s "mailto:" ||
    startsWithS s "tel:" || startsWithS s "#")

/-- Normalisation of one accepted href (lines 242-249): resolve against the
page URL, strip the fragment, then strip all trailing slashes (Python
`rstrip('/')` guarded by `endswith('/')`). -/
def normLink (url href : String) : Option String := do
  let abs ← urljoin? url (pyStrip href)
  let d ← urldefrag? abs
  pure (if endsWithS d "/" then
          String.mk (d.data.reverse.dropWhile (fun c => c == '/')).reverse
        else d)

/-- The link loop of lines 232-253: skip unacceptable hrefs, normalise the
rest in order; an exception from `urljoin`/`urldefrag` aborts the whole
call (`none`). -/
def processLinks (url : String) : List String → Option (List String)
  | [] => some []
  | a :: rest =>
    if !acceptHref a then processLinks url rest
    else do
      let link ← normLink url a
      let links ← processLinks url rest
      pure (link :: links)

/-- `extract_next_links(url, resp)` (lines 145-253) with the statistics
state threaded explicitly.  First component: `some links` is a normal
return, `none` an escaped exception; the statistics mutations performed
before a raise are kept, as the source mutates module globals. -/
def extract_next_links (url : String) (resp : Response) (st : Stats) :
    Option (List String) × Stats :=
  if resp.status != 200 then (some [], st)
  else
    match resp.raw_response with
    | none => (some [], st)
    | some rr =>
      if rr.content_len == 0 then (some [], st)
      else if ctBlocks rr.contentType then (some [], st)
      else if rr.content_len > 10 * 1024 * 1024 then (some [], st)
      else
        match rr.parsed with
        | none => (some [], st)
        | some doc =>
          let ws := pyTokens doc.text
          match observeStats url ws st with
          | (none, st') => (none, st')
          | (some _, st') => (processLinks url doc.anchors, st')

/-- Map a fallible function over a list, failing as soon as one element
fails (the `Option`-monadic map). -/
def mapOpt (f : String → Option String) : List String → Option (List String)
  | [] => some []
  | a :: rest => do
    let b ← f a
    let bs ← mapOpt f rest
    pure (b :: bs)

/-- Modelled from the spec: the per-href normalisation as the specification
words it — resolve against the page URL, strip the fragment, and strip ONE
trailing slash if present.  Used only to compare the specified behaviour
with the source's `rstrip('/')`. -/
def normLinkOneSlash (url href : String) : Option String := do
  let abs ← urljoin? url (pyStrip href)
  let d ← urldefrag? abs
  pure (if endsWithS d "/" then String.mk d.data.dropLast else d)

/-- The statistics state after one successful `observeStats` pass, with the
defragmented page URL `d` and its lower-cased netloc `nl` precomputed. -/
def observedStats (d nl : String) (ws : List String) (st : Stats) : Stats :=
  let st1 : Stats := { st with unique_pages := insert d st.unique_pages }
  let st2 : Stats :=
    if ws.length > st1.longest_page.2 then
      { st1 with longest_page := (d, ws.length) }
    else st1
  let st3 : Stats := { st2 with word_counts := updateWC st2.word_counts ws }
  { st3 with subdomain_pages :=
      fun h => if h = nl then insert d (st3.subdomain_pages h)
               else st3.subdomain_pages h }

/-- A concrete parsed body for exercising the statistics path: no anchors
and 25 counted tokens of text. -/
def docW10 : HtmlDoc :=
  { anchors := []
    text := "zebra zebra zebra zebra zebra zebra zebra zebra zebra zebra zebra zebra zebra zebra zebra zebra zebra zebra zebra zebra zebra zebra zebra zebra zebra" }

/-- A concrete usable raw response wrapping `docW10`. -/
def rrW10 : RawResp :=
  { content_len := 30
    parsed := some docW10
    contentType := some "text/html" }

/-- A concrete 200 response wrapping `rrW10`. -/
def respW10 : Response :=
  { status := 200
    raw_response := some rrW10 }

/-- Master characterisation of `is_valid`: when the call reaches the tracker
check it increments the pattern's counter and returns the post-tracker
verdict; otherwise it returns the early verdict with the state untouched. -/
theorem is_valid_eq (url : String) (c : TrapCounts) :
    is_valid url c =
      if reachesTracker url then
        (postTrackerResult url (c (get_path_pattern url) + 1),
          bump c (get_path_pattern url))
      else (earlyResult url, c) := by
  by_cases h1 : urlRaises url = true
  · simp [is_valid, reachesTracker, earlyResult, h1]
  · by_cases h2 : schemeOkB (pyUrlparseT url "").scheme = true
    · by_cases h3 : allowedDomain (pyLower (pyUrlparseT url "").netloc) = true
      · by_cases h4 : hasDisallowedExt (pyLower (pyUrlparseT url "").path) = true
        · simp [is_valid, reachesTracker, earlyResult, h1, h2, h3, h4]
        · by_cases h5 : hasTrapPattern (pyLower url) = true
          · simp [is_valid, reachesTracker, earlyResult, h1, h2, h3, h4, h5]
          · by_cases h6 : depthExceeded (pathParts (pyUrlparseT url "").path) = true
            · simp [is_valid, reachesTracker, earlyResult, h1, h2, h3, h4, h5, h6]
            · by_cases h7 : queryTooBroad (pyUrlparseT url "").query = true
              · simp [is_valid, reachesTracker, earlyResult, h1, h2, h3, h4,
                  h5, h6, h7]
              · by_cases h8 : hasRepeatedSeg (pathParts (pyUrlparseT url "").path) = true
                · simp [is_valid, reachesTracker, earlyResult, h1, h2, h3, h4,
                    h5, h6, h7, h8]
                · simp [is_valid, reachesTracker, earlyResult, postTrackerResult,
                    bump, h1, h2, h3, h4, h5, h6, h7, h8]
                  split
                  · rfl
                  · split <;> rfl
      · simp [is_valid, reachesTracker, earlyResult, h1, h2, h3]
    · simp [is_valid, reachesTracker, earlyResult, h1, h2]

/-- A reaching call has a non-raising parse. -/
theorem urlRaises_false_of_reaches {url : String}
    (h : reachesTracker url = true) : urlRaises url = false := by
  have := (Bool.and_eq_true _ _).mp h |>.1
  simpa using this

/-- When the parse does not raise, every early exit returns a boolean. -/
theorem earlyResult_isSome {url : String} (hr : urlRaises url = false) :
    (earlyResult url).isSome = true := by
  simp only [earlyResult, hr, Bool.false_eq_true, if_false]
  by_cases h2 : schemeOkB (pyUrlparseT url "").scheme = true <;>
  by_cases h3 : allowedDomain (pyLower (pyUrlparseT url "").netloc) = true <;>
  by_cases h4 : hasDisallowedExt (pyLower (pyUrlparseT url "").path) = true <;>
  by_cases h5 : hasTrapPattern (pyLower url) = true <;>
  by_cases h6 : depthExceeded (pathParts (pyUrlparseT url "").path) = true <;>
  by_cases h7 : queryTooBroad (pyUrlparseT url "").query = true <;>
  by_cases h8 : hasRepeatedSeg (pathParts (pyUrlparseT url "").path) = true <;>
  simp [h2, h3, h4, h5, h6, h7, h8]

/-- The post-tracker verdict is always a boolean. -/
theorem postTrackerResult_isSome (url : String) (n : Nat) :
    (postTrackerResult url n).isSome = true := by
  by_cases h1 : n > MAX_PATTERN_COUNT <;> by_cases h2 : url.length > 300 <;>
    simp [postTrackerResult, h1, h2]

/-- When every early check passes without an early exit, the call reaches the
tracker check. -/
theorem reaches_of_early_true {url : String}
    (h : earlyResult url = some true) : reachesTracker url = true := by
  by_cases h1 : urlRaises url = true
  · simp [earlyResult, h1] at h
  · by_cases h2 : schemeOkB (pyUrlparseT url "").scheme = true
    · by_cases h3 : allowedDomain (pyLower (pyUrlparseT url "").netloc) = true
      · by_cases h4 : hasDisallowedExt (pyLower (pyUrlparseT url "").path) = true
        · simp [earlyResult, h1, h2, h3, h4] at h
        · by_cases h5 : hasTrapPattern (pyLower url) = true
          · simp [earlyResult, h1, h2, h3, h4, h5] at h
          · by_cases h6 : depthExceeded (pathParts (pyUrlparseT url "").path) = true
            · simp [earlyResult, h1, h2, h3, h4, h5, h6] at h
            · by_cases h7 : queryTooBroad (pyUrlparseT url "").query = true
              · simp [earlyResult, h1, h2, h3, h4, h5, h6, h7] at h
              · by_cases h8 : hasRepeatedSeg (pathParts (pyUrlparseT url "").path) = true
                · simp [earlyResult, h1, h2, h3, h4, h5, h6, h7, h8] at h
                · simp only [reachesTracker, Bool.and_eq_true]
                  simp_all
      · simp [earlyResult, h1, h2, h3] at h
    · simp [earlyResult, h1, h2] at h

/-- An element occurring at least twice in a list also occurs before the last
position, hence in `dropLast`. -/
theorem mem_dropLast_of_two_le_count {s : String} :
    ∀ {l : List String}, 2 ≤ l.count s → s ∈ l.dropLast := by
  intro l
  induction l with
  | nil => intro h; simp [List.count_nil] at h
  | cons b t ih =>
    intro h
    cases t with
    | nil =>
      exfalso
      have hle : ([b] : List String).count s ≤ 1 := by
        have := List.count_le_length s [b]
        simpa using this
      omega
    | cons c t' =>
      rw [List.dropLast_cons₂]
      by_cases hb : s = b
      · exact hb ▸ List.mem_cons_self _ _
      · have hb' : ¬ (b = s) := fun e => hb e.symm
        have hc : 2 ≤ (c :: t').count s := by
          rw [List.count_cons] at h
          simp [hb'] at h
          omega
        exact List.mem_cons_of_mem _ (ih hc)

/-- A segment occurring at least 3 times in a list of length at least 4
triggers the repeated-segment check. -/
theorem hasRepeatedSeg_of_count {parts : List String} {s : String}
    (h4 : 4 ≤ parts.length) (hc : 3 ≤ parts.count s) :
    hasRepeatedSeg parts = true := by
  simp only [hasRepeatedSeg, Bool.and_eq_true, decide_eq_true_eq, ge_iff_le]
  refine ⟨h4, List.any_eq_true.mpr ?_⟩
  exact ⟨s, mem_dropLast_of_two_le_count (by omega), by simpa using hc⟩

/-! ## Claims about `is_valid` -/

/-- C1: for every admission call that reaches the Dynamic Trap Tracker check,
the counter for the URL's derived PathPattern is incremented, the call is
rejected by this check exactly when the post-increment count strictly
exceeds the ceiling of 100 (so, per fixed pattern, the first 100 reaching
calls are not rejected by the tracker and the 101st is), and when the count
is within the ceiling the verdict is decided by the remaining URL-length
check alone. -/
theorem C1_tracker_increment_and_ceiling (url : String) (c : TrapCounts)
    (h : reachesTracker url = true) :
    (is_valid url c).2 (get_path_pattern url) = c (get_path_pattern url) + 1 ∧
    (MAX_PATTERN_COUNT < c (get_path_pattern url) + 1 →
      (is_valid url c).1 = some false) ∧
    (c (get_path_pattern url) + 1 ≤ MAX_PATTERN_COUNT →
      (is_valid url c).1 = some (decide (url.length ≤ 300))) := by
  refine ⟨?_, ?_, ?_⟩
  · simp [is_valid_eq, h, bump]
  · intro h2
    simp [is_valid_eq, h, postTrackerResult, h2]
  · intro h3
    have h2 : ¬ MAX_PATTERN_COUNT < c (get_path_pattern url) + 1 := by omega
    by_cases h4 : 300 < url.length
    · have : ¬ url.length ≤ 300 := by omega
      simp [is_valid_eq, h, postTrackerResult, h2, h4, this]
    · have : url.length ≤ 300 := by omega
      simp [is_valid_eq, h, postTrackerResult, h2, h4, this]

/-- Witness for C1 at a concrete reaching call from the empty tracker state:
the pattern's counter becomes 1 and the call, within the ceiling and the
length bound, is admitted. -/
theorem C1_witness :
    reachesTracker "http://cs.uci.edu/page" = true ∧
    (is_valid "http://cs.uci.edu/page" (fun _ => 0)).2
      (get_path_pattern "http://cs.uci.edu/page") =
      (fun _ : String => 0) (get_path_pattern "http://cs.uci.edu/page") + 1 ∧
    (is_valid "http://cs.uci.edu/page" (fun _ => 0)).1 =
      some (decide (("http://cs.uci.edu/page" : String).length ≤ 300)) := by
  refine ⟨by decide, ?_, ?_⟩
  · exact (C1_tracker_increment_and_ceiling _ _ (by decide)).1
  · exact (C1_tracker_increment_and_ceiling _ _ (by decide)).2.2 (by decide)

/-- C2 fails on the code: a call rejected by the domain check returns without
touching the tracker state, so the counter of the URL's own pattern stays 0
instead of being incremented to 1. -/
theorem C2_counterexample :
    (is_valid "https://www.google.com/page/1" (fun _ => 0)).1 = some false ∧
    (is_valid "https://www.google.com/page/1" (fun _ => 0)).2
      (get_path_pattern "https://www.google.com/page/1") = 0 := by
  constructor <;> rfl

/-- C2 (amended): the admission check mutates the Dynamic Trap Tracker state
exactly on the calls that pass the scheme, domain, extension, trap-substring,
path-depth, query-breadth and repeated-segment checks (i.e. reach the tracker
check); such calls increment the counter of the URL's derived PathPattern
regardless of the final verdict, and every other call leaves the state
unchanged. -/
theorem C2_increment_iff_reaches (url : String) (c : TrapCounts) :
    (is_valid url c).2 =
      if reachesTracker url then bump c (get_path_pattern url) else c := by
  rw [is_valid_eq]
  split <;> rfl

/-- C3: admission returns true only if the scheme is http or https and the
lower-cased host equals, or is a dot-suffix sub-host of, one of the four
allowed root domains; and whenever the URL parses and its host is outside
the allow-list, admission returns false. -/
theorem C3_scheme_and_domain (url : String) (c : TrapCounts) :
    ((is_valid url c).1 = some true →
      schemeOkB (pyUrlparseT url "").scheme = true ∧
      allowedDomain (pyLower (pyUrlparseT url "").netloc) = true) ∧
    (urlRaises url = false →
      allowedDomain (pyLower (pyUrlparseT url "").netloc) = false →
      (is_valid url c).1 = some false) := by
  constructor
  · intro htrue
    have hreach : reachesTracker url = true := by
      rw [is_valid_eq] at htrue
      by_cases h : reachesTracker url = true
      · exact h
      · simp only [h, if_false, Bool.false_eq_true] at htrue
        exact reaches_of_early_true (by
          cases he : earlyResult url with
          | none => rw [he] at htrue; exact absurd htrue (by simp)
          | some b =>
            rw [he] at htrue
            cases b with
            | true => rfl
            | false => exact absurd htrue (by simp))
    have hrest := ((Bool.and_eq_true _ _).mp hreach).2
    simp only [Bool.and_eq_true] at hrest
    exact ⟨hrest.1.1.1.1.1.1, hrest.1.1.1.1.1.2⟩
  · intro hr hd
    have hnr : reachesTracker url = false := by
      simp only [reachesTracker]
      simp [hd]
    rw [is_valid_eq, hnr]
    simp only [Bool.false_eq_true, if_false]
    by_cases h2 : schemeOkB (pyUrlparseT url "").scheme = true
    · simp [earlyResult, hr, h2, hd]
    · simp [earlyResult, hr, h2]

/-- Witness for C3: an in-domain admitted URL yields the scheme and host
facts, and an out-of-domain host is rejected. -/
theorem C3_witness :
    (schemeOkB (pyUrlparseT "https://ngs.ics.uci.edu/page" "").scheme = true ∧
      allowedDomain (pyLower (pyUrlparseT "https://ngs.ics.uci.edu/page" "").netloc) = true) ∧
    (is_valid "https://www.math.uci.edu" (fun _ => 0)).1 = some false := by
  constructor
  · exact (C3_scheme_and_domain "https://ngs.ics.uci.edu/page" (fun _ => 0)).1 (by decide)
  · exact (C3_scheme_and_domain "https://www.math.uci.edu" (fun _ => 0)).2
      (by decide) (by decide)

/-- C4: whenever the URL parses and its lower-cased path ends in one of the
disallowed non-HTML extensions, admission returns false, whatever the host. -/
theorem C4_extension_reject (url : String) (c : TrapCounts)
    (hr : urlRaises url = false)
    (he : hasDisallowedExt (pyLower (pyUrlparseT url "").path) = true) :
    (is_valid url c).1 = some false := by
  have hnr : reachesTracker url = false := by
    simp only [reachesTracker]
    simp [he]
  rw [is_valid_eq, hnr]
  simp only [Bool.false_eq_true, if_false]
  by_cases h2 : schemeOkB (pyUrlparseT url "").scheme = true
  · by_cases h3 : allowedDomain (pyLower (pyUrlparseT url "").netloc) = true
    · simp [earlyResult, hr, h2, h3, he]
    · simp [earlyResult, hr, h2, h3]
  · simp [earlyResult, hr, h2]

/-- Witness for C4 at `https://www.ics.uci.edu/file.pdf`, which parses, ends
in `.pdf`, and is rejected. -/
theorem C4_witness :
    (is_valid "https://www.ics.uci.edu/file.pdf" (fun _ => 0)).1 = some false :=
  C4_extension_reject _ _ (by decide) (by decide)

/-- C5 fails on the code: the repeated-segment check is guarded by a
minimum of 4 path segments, so `http://cs.uci.edu/a/a/a` — whose segment
`a` occurs 3 times — is admitted from a fresh tracker state. -/
theorem C5_counterexample :
    (pathParts (pyUrlparseT "http://cs.uci.edu/a/a/a" "").path).count "a" = 3 ∧
    (is_valid "http://cs.uci.edu/a/a/a" (fun _ => 0)).1 = some true := by
  constructor <;> rfl

/-- C5 (amended): for every URL that survives the checks before the
repeated-segment check and whose path has at least 4 non-empty segments, if
some single path segment (case-sensitively) occurs 3 or more times among the
segments then admission returns false; in particular
`is_valid "http://cs.uci.edu/a/b/a/b/a/b"` is false. -/
theorem C5_repeated_segment_reject (url : String) (c : TrapCounts)
    (h : reachesRepeatCheck url = true)
    (h4 : 4 ≤ (pathParts (pyUrlparseT url "").path).length)
    (hs : ∃ s, 3 ≤ (pathParts (pyUrlparseT url "").path).count s) :
    (is_valid url c).1 = some false := by
  obtain ⟨s, hcount⟩ := hs
  have hrep : hasRepeatedSeg (pathParts (pyUrlparseT url "").path) = true :=
    hasRepeatedSeg_of_count h4 hcount
  simp only [reachesRepeatCheck, Bool.and_eq_true] at h
  obtain ⟨hr, ⟨⟨⟨⟨⟨h2, h3⟩, hx⟩, ht⟩, hdep⟩, hq⟩⟩ := h
  have hr' : urlRaises url = false := by simpa using hr
  have hnr : reachesTracker url = false := by
    simp only [reachesTracker]
    simp [hrep]
  rw [is_valid_eq, hnr]
  simp only [Bool.false_eq_true, if_false]
  simp only [earlyResult, hr', Bool.false_eq_true, if_false]
  simp only [Bool.not_eq_true'] at hx ht hdep hq
  simp [h2, h3, hx, ht, hdep, hq, hrep]

/-- Witness for C5 at `http://cs.uci.edu/a/b/a/b/a/b`: every earlier check
passes, the path has 6 segments with `a` occurring 3 times, and the URL is
rejected. -/
theorem C5_witness :
    (is_valid "http://cs.uci.edu/a/b/a/b/a/b" (fun _ => 0)).1 = some false :=
  C5_repeated_segment_reject _ _ (by decide) (by decide) ⟨"a", by decide⟩

/-- C9 fails on the code: only `TypeError` is caught, so the `ValueError`
that `urlparse` raises on an unbalanced bracket in the authority propagates
out of `is_valid` instead of being turned into a false verdict. -/
theorem C9_counterexample :
    (is_valid "http://[" (fun _ => 0)).1 = none := by
  rfl

/-- C9 (amended): `is_valid` returns a boolean exactly when `urlparse` does
not raise on the URL; when `urlparse` raises `ValueError` (an unbalanced
square bracket in the authority), the exception propagates to the caller,
since the source catches only `TypeError`. -/
theorem C9_returns_iff_parse_ok (url : String) (c : TrapCounts) :
    ((is_valid url c).1).isSome = !urlRaises url := by
  rw [is_valid_eq]
  by_cases h : reachesTracker url = true
  · rw [urlRaises_false_of_reaches h]
    simp [h, postTrackerResult_isSome]
  · simp only [h, Bool.false_eq_true, if_false]
    by_cases hr : urlRaises url = true
    · simp [earlyResult, hr]
    · have hr' : urlRaises url = false := by simpa using hr
      simp [earlyResult_isSome hr', hr']

/-- `updateWC` adds, at each key, the number of counted occurrences of that
key in the token list. -/
theorem updateWC_apply (ws : List String) :
    ∀ (wc : String → Nat) (v : String),
      updateWC wc ws v = wc v + (ws.filter countedTok).count v := by
  induction ws with
  | nil => intro wc v; simp [updateWC]
  | cons w rest ih =>
    intro wc v
    by_cases hw : countedTok w = true
    · rw [updateWC, if_pos hw, ih, List.filter_cons_of_pos hw, List.count_cons]
      by_cases hv : v = w
      · simp [bumpWC, hv]
        omega
      · have hv' : (v == w) = false := by simp [hv]
        have hw' : ¬ (w = v) := fun e => hv e.symm
        simp [bumpWC, hv, hv', hw']
    · rw [updateWC, if_neg hw, ih,
        List.filter_cons_of_neg (by simpa using hw)]

/-- `observeStats` on a qualifying token list with a clean page URL succeeds
and performs exactly the `observedStats` update. -/
theorem observeStats_ok {url : String} {ws : List String} {st : Stats}
    {d : String} {pd : UrlParts}
    (hws : ¬ ws.length < 25) (hd : urldefrag? url = some d)
    (hpd : pyUrlparse d = some pd) :
    observeStats url ws st = (some (), observedStats d (pyLower pd.netloc) ws st) := by
  simp only [observeStats, observedStats, hd, hpd, if_neg hws]

/-- The unique-page set after an `observedStats` update. -/
theorem observedStats_unique (d nl : String) (ws : List String) (st : Stats) :
    (observedStats d nl ws st).unique_pages = insert d st.unique_pages := by
  simp only [observedStats]
  split <;> rfl

/-- The word counts after an `observedStats` update. -/
theorem observedStats_wc (d nl : String) (ws : List String) (st : Stats) :
    (observedStats d nl ws st).word_counts = updateWC st.word_counts ws := by
  simp only [observedStats]
  split <;> rfl

/-- On a usable, parsed response with a qualifying body and a clean page
URL, `extract_next_links` updates the statistics by `observedStats`. -/
theorem extract_stats_eq {url : String} {resp : Response} {st : Stats}
    {rr : RawResp} {doc : HtmlDoc} {d : String} {pd : UrlParts}
    (hst : resp.status = 200) (hrr : resp.raw_response = some rr)
    (hlen : rr.content_len ≠ 0) (hct : ctBlocks rr.contentType = false)
    (hbig : ¬ 10 * 1024 * 1024 < rr.content_len) (hdoc : rr.parsed = some doc)
    (hws : ¬ (pyTokens doc.text).length < 25)
    (hd : urldefrag? url = some d) (hpd : pyUrlparse d = some pd) :
    (extract_next_links url resp st).2 =
      observedStats d (pyLower pd.netloc) (pyTokens doc.text) st := by
  have hst' : (resp.status != 200) = false := by simp [hst]
  have hlen' : (rr.content_len == 0) = false := by simpa using hlen
  simp only [extract_next_links, hst', Bool.false_eq_true, if_false, hrr,
    hlen', hct, if_neg hbig, hdoc, observeStats_ok hws hd hpd]

/-! ## Claims about `extract_next_links` and the statistics -/

/-- C6 fails on the code at one edge: a declared but empty `Content-Type`
header is falsy in Python, so the content-type guard does not fire and the
page's links are extracted, although the header is present and does not
contain `text/html`. -/
theorem C6_counterexample :
    containsSubS "" "text/html" = false ∧
    (extract_next_links "http://cs.uci.edu/x"
      { status := 200
        raw_response := some { content_len := 5
                               parsed := some { anchors := ["/a"], text := "hi" }
                               contentType := some "" } } stats0).1 =
      some ["http://cs.uci.edu/a"] := by
  constructor <;> rfl

/-- C6 (amended): extraction returns the empty sequence whenever the status
code is not 200, or the body is absent or empty, or the declared
content-type is present and non-empty and does not contain `text/html`, or
the body size exceeds 10 MiB — in each case with the statistics state
untouched. -/
theorem C6_empty_on_unusable (url : String) (resp : Response) (st : Stats)
    (h : resp.status ≠ 200 ∨ resp.raw_response = none ∨
      (∃ rr, resp.raw_response = some rr ∧ rr.content_len = 0) ∨
      (∃ rr s, resp.raw_response = some rr ∧ rr.contentType = some s ∧
        s ≠ "" ∧ containsSubS s "text/html" = false) ∨
      (∃ rr, resp.raw_response = some rr ∧ 10 * 1024 * 1024 < rr.content_len)) :
    extract_next_links url resp st = (some [], st) := by
  by_cases hb : (resp.status != 200) = true
  · simp [extract_next_links, hb]
  · have hs : resp.status = 200 := by simpa [bne_iff_ne] using hb
    rcases h with h | h | ⟨rr, hrr, h0⟩ | ⟨rr, s, hrr, hcts, hs', hc⟩ | ⟨rr, hrr, hbig⟩
    · exact absurd hs h
    · simp [extract_next_links, hb, h]
    · simp [extract_next_links, hb, hrr, h0]
    · by_cases h0 : (rr.content_len == 0) = true
      · simp [extract_next_links, hb, hrr, h0]
      · have hctb : ctBlocks rr.contentType = true := by
          simp [ctBlocks, hcts, hs', hc]
        simp [extract_next_links, hb, hrr, h0, hctb]
    · by_cases h0 : (rr.content_len == 0) = true
      · simp [extract_next_links, hb, hrr, h0]
      · by_cases hctb : ctBlocks rr.contentType = true
        · simp [extract_next_links, hb, hrr, h0, hctb]
        · simp [extract_next_links, hb, hrr, h0, hctb, hbig]

/-- Witness for C6 on a 404 response with a non-empty parseable body. -/
theorem C6_witness :
    extract_next_links "http://cs.uci.edu/x"
      { status := 404
        raw_response := some { content_len := 5
                               parsed := some { anchors := ["/a"], text := "hi" }
                               contentType := some "text/html" } } stats0 = (some [], stats0) :=
  C6_empty_on_unusable _ _ _ (Or.inl (by decide))

/-- C7 fails on the code at hrefs resolving to several trailing slashes: the
source's `rstrip('/')` removes them all, while the claim specifies removing
one, so for href `/a//` on page `http://cs.uci.edu/x` the emitted link is
`http://cs.uci.edu/a`, not the claimed `http://cs.uci.edu/a/`. -/
theorem C7_counterexample :
    (extract_next_links "http://cs.uci.edu/x"
      { status := 200
        raw_response := some { content_len := 5
                               parsed := some { anchors := ["/a//"], text := "hi" }
                               contentType := some "text/html" } } stats0).1 =
      some ["http://cs.uci.edu/a"] ∧
    normLinkOneSlash "http://cs.uci.edu/x" "/a//" = some "http://cs.uci.edu/a/" ∧
    ("http://cs.uci.edu/a" : String) ≠ "http://cs.uci.edu/a/" := by
  refine ⟨rfl, rfl, by decide⟩

/-- C7 (amended): every link the extractor emits is the corresponding
accepted href resolved against the page URL, with the fragment stripped and
with ALL trailing slashes stripped if present — the loop equals the
monadic map of that normalisation over the accepted hrefs; in particular
href `/a#section` on page `http://cs.uci.edu/x` yields
`http://cs.uci.edu/a`. -/
theorem C7_links_are_normalised (url : String) (anchors : List String) :
    processLinks url anchors = mapOpt (normLink url) (anchors.filter acceptHref) ∧
    normLink "http://cs.uci.edu/x" "/a#section" = some "http://cs.uci.edu/a" := by
  constructor
  · induction anchors with
    | nil => rfl
    | cons a rest ih =>
      by_cases ha : acceptHref a = true
      · simp [processLinks, mapOpt, List.filter_cons_of_pos ha, ha, ih]
      · have ha' : acceptHref a = false := by simpa using ha
        simp [processLinks, List.filter_cons_of_neg (by simpa using ha), ha', ih]
  · rfl

/-- C8 fails on the code: `is` is in `STOP_WORDS`, so counting the tokens of
`"The the a an of Crawling is fun"` records `crawling` and `fun` but not
`is`, whose count stays 0. -/
theorem C8_counterexample :
    updateWC (fun _ => 0) (pyTokens "The the a an of Crawling is fun") "is" = 0 ∧
    STOP_WORDS.contains "is" = true ∧
    updateWC (fun _ => 0) (pyTokens "The the a an of Crawling is fun") "crawling" = 1 ∧
    updateWC (fun _ => 0) (pyTokens "The the a an of Crawling is fun") "fun" = 1 := by
  refine ⟨rfl, rfl, rfl, rfl⟩

/-- C8 (amended): counting the tokens of `"The the a an of Crawling is fun"`
from empty counts records exactly the tokens `crawling` and `fun`, once
each; every other token — `is` included — is excluded as a stop word or as
having length 1 or less. -/
theorem C8_stop_word_exclusion (w : String) :
    updateWC (fun _ => 0) (pyTokens "The the a an of Crawling is fun") w =
      (["crawling", "fun"] : List String).count w := by
  rw [updateWC_apply]
  have hf : (pyTokens "The the a an of Crawling is fun").filter countedTok =
      ["crawling", "fun"] := by rfl
  rw [hf]
  simp

/-- C10: on a usable response whose body yields at least 25 tokens, a second
`extract_next_links` call with the same page URL leaves the unique-page set
unchanged, yet both calls add the full per-token counted occurrences to
`word_counts` — statistics accumulate per call, so re-observing the page
double-counts its words. -/
theorem C10_second_call_double_counts (url : String) (resp : Response)
    (st : Stats) (rr : RawResp) (doc : HtmlDoc) (d : String) (pd : UrlParts)
    (hst : resp.status = 200) (hrr : resp.raw_response = some rr)
    (hlen : rr.content_len ≠ 0) (hct : ctBlocks rr.contentType = false)
    (hbig : ¬ 10 * 1024 * 1024 < rr.content_len) (hdoc : rr.parsed = some doc)
    (hws : 25 ≤ (pyTokens doc.text).length)
    (hd : urldefrag? url = some d) (hpd : pyUrlparse d = some pd) :
    (extract_next_links url resp
        ((extract_next_links url resp st).2)).2.unique_pages =
      ((extract_next_links url resp st).2).unique_pages ∧
    (∀ w, ((extract_next_links url resp st).2).word_counts w =
      st.word_counts w + ((pyTokens doc.text).filter countedTok).count w) ∧
    (∀ w, (extract_next_links url resp
        ((extract_next_links url resp st).2)).2.word_counts w =
      ((extract_next_links url resp st).2).word_counts w +
        ((pyTokens doc.text).filter countedTok).count w) := by
  have hws' : ¬ (pyTokens doc.text).length < 25 := by omega
  have h1 := @extract_stats_eq url resp st rr doc d pd
    hst hrr hlen hct hbig hdoc hws' hd hpd
  have h2 := @extract_stats_eq url resp ((extract_next_links url resp st).2)
    rr doc d pd hst hrr hlen hct hbig hdoc hws' hd hpd
  refine ⟨?_, ?_, ?_⟩
  · rw [h2, h1]
    simp only [observedStats_unique]
    exact Finset.insert_idem _ _
  · intro w
    rw [h1, observedStats_wc, updateWC_apply]
  · intro w
    rw [h2, observedStats_wc, updateWC_apply]

/-- Witness for C10 on a concrete qualifying page: the second call keeps the
unique-page set, and the first call adds the counted occurrences of
`zebra`. -/
theorem C10_witness :
    (extract_next_links "http://cs.uci.edu/x" respW10
        ((extract_next_links "http://cs.uci.edu/x" respW10 stats0).2)).2.unique_pages =
      ((extract_next_links "http://cs.uci.edu/x" respW10 stats0).2).unique_pages ∧
    ((extract_next_links "http://cs.uci.edu/x" respW10 stats0).2).word_counts "zebra" =
      stats0.word_counts "zebra" +
        ((pyTokens docW10.text).filter countedTok).count "zebra" := by
  have h := C10_second_call_double_counts "http://cs.uci.edu/x" respW10 stats0
    rrW10 docW10 "http://cs.uci.edu/x" (pyUrlparseT "http://cs.uci.edu/x" "")
    rfl rfl (by decide) (by decide) (by decide) rfl (by decide) rfl rfl
  exact ⟨h.1, h.2.1 "zebra"⟩

end Scraper
